import Mathlib

/-!
Shallow embedding of `src/backend/src/ai_manager.py` (classes `AIProvider`
and `MultiAIManager`): a multi-provider failover router for chat messages.

Modelling conventions:
* Calendar dates are natural numbers; every method that reads
  `datetime.now().date()` takes the current date `today` explicitly.
* The network is an oracle: each HTTP attempt is given an
  `Except String HttpResponse` value, where `Except.error e` models a raised
  `requests` exception (caught by `AIProvider.send_message`) and
  `Except.ok r` models a returned HTTP response.  At the router level the
  oracle is a function `Nat → Except String HttpResponse` keyed by the index
  of the contacted provider in the manager's provider list (each provider is
  contacted at most once per call, so this is well defined).
* Python lists are Lean lists; the aliasing in
  `messages = context or []` followed by `messages.append(...)` (which
  mutates the caller's list exactly when the passed context is a non-empty
  list) is modelled by returning the possibly-mutated shared context.
* `MultiAIManager.send_message` additionally returns a ghost trace: the list
  of provider indices for which a network attempt was performed, in order.
-/

structure Msg where
  role : String
  content : String
  deriving DecidableEq, Repr

/-- The part of an HTTP response that `ai_manager.py` reads: the status code,
the raw body text (used for the rate-limit substring check), and the parsed
success fields (message content and token usage). -/
structure HttpResponse where
  status_code : Nat
  text : String
  response_content : String
  tokens_used : Nat
  deriving DecidableEq, Repr

/-- Result dictionary of a send: either the success dict
`{success, response, provider, tokens_used}` or an `{error}` dict. -/
inductive SendResult where
  | success (response : String) (provider : String) (tokens_used : Nat)
  | error (msg : String)
  deriving DecidableEq, Repr

def SendResult.isSuccess : SendResult → Bool
  | SendResult.success _ _ _ => true
  | SendResult.error _ => false

/-- Python `needle in hay` substring containment, over character lists. -/
def hasSubstring (needle hay : List Char) : Bool :=
  match hay with
  | [] => needle.isEmpty
  | _ :: t => needle.isPrefixOf hay || hasSubstring needle t

/-- Python `str.lower()` (character-wise lowercasing, as Lean's
`String.toLower`, but kernel-reducible). -/
def pyLower (s : String) : String :=
  ⟨s.data.map Char.toLower⟩

/-- `"rate_limit" in response.text.lower()` -/
def rateLimitSignal (text : String) : Bool :=
  hasSubstring "rate_limit".toList (pyLower text).toList

structure AIProvider where
  name : String
  api_key : String
  base_url : String
  model : String
  daily_limit : Int
  messages_used_today : Nat
  last_reset : Nat
  is_available : Bool
  last_error : Option String
  deriving DecidableEq, Repr

/-- `AIProvider.__init__(name, api_key, base_url, model, daily_limit)`,
with `today` standing for `datetime.now().date()`. -/
def AIProvider.init (today : Nat) (name api_key base_url model : String)
    (daily_limit : Int) : AIProvider :=
  { name := name, api_key := api_key, base_url := base_url, model := model,
    daily_limit := daily_limit, messages_used_today := 0, last_reset := today,
    is_available := true, last_error := none }

instance : Inhabited AIProvider :=
  ⟨AIProvider.init 0 "" "" "" "" 1000⟩

/-- `AIProvider.reset_daily_counter` -/
def AIProvider.reset_daily_counter (today : Nat) (p : AIProvider) : AIProvider :=
  if p.last_reset < today then
    { p with messages_used_today := 0, last_reset := today, is_available := true }
  else p

/-- `AIProvider.can_send_message`: returns the boolean together with the
provider state as mutated by the lazy daily reset. -/
def AIProvider.can_send_message (today : Nat) (p : AIProvider) :
    Bool × AIProvider :=
  let q := p.reset_daily_counter today
  (q.is_available && (q.messages_used_today : Int) < q.daily_limit, q)

/-- Outcome of a vendor-specific request body: a returned dict or a raised
exception (to be caught by the dispatcher). -/
inductive PyOutcome where
  | ret (d : SendResult)
  | exc (e : String)
  deriving DecidableEq, Repr

/-- `AIProvider._send_openai_message`.  `messages = context or []` aliases
the caller's list exactly when `context` is a non-empty list, so the
`messages.append({"role": "user", ...})` mutates the shared context in that
case; the third component is the shared context after the call. -/
def AIProvider.send_openai_message (net : Except String HttpResponse)
    (p : AIProvider) (message : String) (context : Option (List Msg)) :
    PyOutcome × AIProvider × Option (List Msg) :=
  let base : List Msg :=
    match context with
    | some c => c
    | none => []
  let messages := base ++ [⟨"user", message⟩]
  let context' : Option (List Msg) :=
    match context with
    | some c => if c.isEmpty then some c else some messages
    | none => none
  match net with
  | Except.error e => (PyOutcome.exc e, p, context')
  | Except.ok resp =>
    if resp.status_code == 200 then
      (PyOutcome.ret (SendResult.success resp.response_content p.name resp.tokens_used),
       { p with messages_used_today := p.messages_used_today + 1 }, context')
    else
      let error_msg := "HTTP " ++ toString resp.status_code ++ ": " ++ resp.text
      let p' := if rateLimitSignal resp.text then { p with is_available := false } else p
      (PyOutcome.ret (SendResult.error error_msg), p', context')

/-- `AIProvider._send_claude_message`: builds a fresh `claude_messages` list
(filtering the context to user/assistant roles), so the shared context is
never mutated. -/
def AIProvider.send_claude_message (net : Except String HttpResponse)
    (p : AIProvider) (message : String) (context : Option (List Msg)) :
    PyOutcome × AIProvider × Option (List Msg) :=
  let _claude_messages : List Msg :=
    ((match context with
      | some c => c
      | none => []).filter
        (fun msg => msg.role == "user" || msg.role == "assistant"))
      ++ [⟨"user", message⟩]
  match net with
  | Except.error e => (PyOutcome.exc e, p, context)
  | Except.ok resp =>
    if resp.status_code == 200 then
      (PyOutcome.ret (SendResult.success resp.response_content p.name resp.tokens_used),
       { p with messages_used_today := p.messages_used_today + 1 }, context)
    else
      let error_msg := "HTTP " ++ toString resp.status_code ++ ": " ++ resp.text
      let p' := if rateLimitSignal resp.text then { p with is_available := false } else p
      (PyOutcome.ret (SendResult.error error_msg), p', context)

/-- `AIProvider._send_deepseek_message`: identical shape to the OpenAI one,
including the context aliasing. -/
def AIProvider.send_deepseek_message (net : Except String HttpResponse)
    (p : AIProvider) (message : String) (context : Option (List Msg)) :
    PyOutcome × AIProvider × Option (List Msg) :=
  AIProvider.send_openai_message net p message context

/-- The `try`/`except` of `AIProvider.send_message`: an exception is logged
into `last_error` and converted to an `{error}` dict. -/
def handleOutcome (out : PyOutcome × AIProvider × Option (List Msg)) :
    SendResult × AIProvider × Option (List Msg) :=
  match out with
  | (PyOutcome.ret d, p, c) => (d, p, c)
  | (PyOutcome.exc e, p, c) =>
      (SendResult.error e, { p with last_error := some e }, c)

/-- `AIProvider.send_message`: the can-send guard followed by the dispatch on
the lower-cased provider name. -/
def AIProvider.send_message (today : Nat) (net : Except String HttpResponse)
    (p : AIProvider) (message : String) (context : Option (List Msg)) :
    SendResult × AIProvider × Option (List Msg) :=
  let cs := p.can_send_message today
  let q := cs.2
  if cs.1 = false then
    (SendResult.error ("Daily limit reached for " ++ q.name), q, context)
  else
    let lower := pyLower q.name
    if lower = "openai" then
      handleOutcome (q.send_openai_message net message context)
    else if lower = "claude" then
      handleOutcome (q.send_claude_message net message context)
    else if lower = "deepseek" then
      handleOutcome (q.send_deepseek_message net message context)
    else
      (SendResult.error ("Unknown provider: " ++ q.name), q, context)

structure MultiAIManager where
  providers : List AIProvider
  conversation_context : List Msg
  current_provider_index : Nat
  max_context_length : Nat
  deriving DecidableEq, Repr

/-- `MultiAIManager.__init__` -/
def MultiAIManager.init : MultiAIManager :=
  { providers := [], conversation_context := [], current_provider_index := 0,
    max_context_length := 20 }

/-- `MultiAIManager.add_provider` -/
def MultiAIManager.add_provider (today : Nat) (m : MultiAIManager)
    (name api_key base_url model : String) (daily_limit : Int) : MultiAIManager :=
  { m with providers :=
      m.providers ++ [AIProvider.init today name api_key base_url model daily_limit] }

/-- `MultiAIManager.get_available_providers`: every provider's
`can_send_message` is evaluated (so every provider undergoes the lazy daily
reset), and the passing ones are kept.  The Python list holds references into
`self.providers`; here we return the indices of the available providers into
the updated provider list. -/
def MultiAIManager.get_available_providers (today : Nat) (m : MultiAIManager) :
    MultiAIManager × List Nat :=
  let ps := m.providers.map (fun p => p.reset_daily_counter today)
  let idxs := (List.range ps.length).filter (fun i =>
    let p := ps.getD i default
    p.is_available && (p.messages_used_today : Int) < p.daily_limit)
  ({ m with providers := ps }, idxs)

/-- The `for i in range(len(available_providers))` loop of
`MultiAIManager.send_message`, entered at iteration `i` with `fuel` loop
iterations left (the caller passes `i = 0` and
`fuel = len(available_providers)`, so the body runs once per
`i in range(len(available_providers))` unless it returns early).  `avail` is
the list of available provider indices; the third component of the result is
the ghost trace of provider indices attempted from iteration `i` on. -/
def MultiAIManager.sendLoop (today : Nat) (net : Nat → Except String HttpResponse)
    (message : String) (preserve_context : Bool) (avail : List Nat)
    (fuel : Nat) (m : MultiAIManager) (i : Nat) :
    SendResult × MultiAIManager × List Nat :=
  match fuel with
  | 0 => (SendResult.error "All available providers failed to respond", m, [])
  | fuel' + 1 =>
    let provider_index := (m.current_provider_index + i) % avail.length
    let j := avail.getD provider_index 0
    let p := m.providers.getD j default
    let context := if preserve_context then some m.conversation_context else none
    let step := p.send_message today (net j) message context
    let m' : MultiAIManager :=
      { m with providers := m.providers.set j step.2.1,
               conversation_context :=
                 if preserve_context then (step.2.2).getD m.conversation_context
                 else m.conversation_context }
    match step.1 with
    | SendResult.success r prov tok =>
      let m'' :=
        { m' with conversation_context :=
            if preserve_context then
              let cc : List Msg :=
                m'.conversation_context ++
                  ([⟨"user", message⟩, ⟨"assistant", r⟩] : List Msg)
              if m'.max_context_length < cc.length then
                cc.drop (cc.length - m'.max_context_length)
              else cc
            else m'.conversation_context }
      (SendResult.success r prov tok,
       { m'' with current_provider_index := provider_index }, [j])
    | SendResult.error _ =>
      let rest :=
        MultiAIManager.sendLoop today net message preserve_context avail fuel' m' (i + 1)
      (rest.1, rest.2.1, j :: rest.2.2)

/-- `MultiAIManager.send_message`.  The third component is the ghost trace of
provider indices for which a network attempt was made. -/
def MultiAIManager.send_message (today : Nat) (net : Nat → Except String HttpResponse)
    (m : MultiAIManager) (message : String) (preserve_context : Bool) :
    SendResult × MultiAIManager × List Nat :=
  if m.providers.isEmpty then
    (SendResult.error "No AI providers configured", m, [])
  else
    let av := m.get_available_providers today
    if av.2.isEmpty then
      (SendResult.error "All AI providers have reached their daily limits", av.1, [])
    else
      MultiAIManager.sendLoop today net message preserve_context av.2 av.2.length av.1 0

/-- One entry of `MultiAIManager.get_provider_status`. -/
structure ProviderStatus where
  name : String
  available : Bool
  messages_used : Nat
  daily_limit : Int
  last_error : Option String
  deriving DecidableEq, Repr

/-- `MultiAIManager.get_provider_status` (also performs the lazy reset). -/
def MultiAIManager.get_provider_status (today : Nat) (m : MultiAIManager) :
    MultiAIManager × List ProviderStatus :=
  let ps := m.providers.map (fun p => p.reset_daily_counter today)
  ({ m with providers := ps },
   ps.map (fun p =>
     ⟨p.name, p.is_available, p.messages_used_today, p.daily_limit, p.last_error⟩))

/-- `MultiAIManager.reset_conversation` -/
def MultiAIManager.reset_conversation (m : MultiAIManager) : MultiAIManager :=
  { m with conversation_context := [] }

/-- One entry of the JSON list written by `MultiAIManager.save_configuration`:
name, base_url, model and daily_limit only. -/
structure ConfigEntry where
  name : String
  base_url : String
  model : String
  daily_limit : Int
  deriving DecidableEq, Repr

/-- `MultiAIManager.save_configuration`: the content written to the file. -/
def MultiAIManager.save_configuration (m : MultiAIManager) : List ConfigEntry :=
  m.providers.map (fun p => ⟨p.name, p.base_url, p.model, p.daily_limit⟩)

/-! ## Theorems -/

/-- C7: if zero providers are configured, `send_message` fails with the
`"No AI providers configured"` error, performs no network attempt (empty
trace), and leaves the router and provider state unchanged. -/
theorem send_message_no_providers_configured
    (today : Nat) (net : Nat → Except String HttpResponse) (m : MultiAIManager)
    (message : String) (pc : Bool) (h : m.providers = []) :
    m.send_message today net message pc =
      (SendResult.error "No AI providers configured", m, []) := by
  simp [MultiAIManager.send_message, h]

/-- Witness for `send_message_no_providers_configured` at a concrete input. -/
theorem send_message_no_providers_configured_witness :
    MultiAIManager.init.providers = [] ∧
    MultiAIManager.init.send_message 7 (fun _ => Except.error "down") "hi" true =
      (SendResult.error "No AI providers configured", MultiAIManager.init, []) :=
  ⟨rfl, send_message_no_providers_configured 7 _ MultiAIManager.init "hi" true rfl⟩

/-- Equality of every provider field that `save_configuration` persists
(everything except the API key and the volatile counters). -/
def persistedEq (p q : AIProvider) : Prop :=
  p.name = q.name ∧ p.base_url = q.base_url ∧ p.model = q.model ∧
    p.daily_limit = q.daily_limit

theorem save_config_map_eq :
    ∀ (ps qs : List AIProvider), List.Forall₂ persistedEq ps qs →
      ps.map (fun p => (⟨p.name, p.base_url, p.model, p.daily_limit⟩ : ConfigEntry)) =
        qs.map (fun p => (⟨p.name, p.base_url, p.model, p.daily_limit⟩ : ConfigEntry)) := by
  intro ps qs h
  induction h with
  | nil => rfl
  | cons hpq _ ih =>
    obtain ⟨h1, h2, h3, h4⟩ := hpq
    simp [List.map_cons, ih, h1, h2, h3, h4]

/-- C9: the configuration persisted by `save_configuration` consists, per
provider, of name, base URL, model and daily limit only; two manager states
whose providers agree on those fields (in particular, states differing only
in API key values) produce identical persisted content. -/
theorem save_configuration_excludes_api_keys
    (m m' : MultiAIManager)
    (h : List.Forall₂ persistedEq m.providers m'.providers) :
    m.save_configuration = m'.save_configuration :=
  save_config_map_eq m.providers m'.providers h

/-- Witness for `save_configuration_excludes_api_keys`: two one-provider
managers that differ only in the stored API key. -/
theorem save_configuration_excludes_api_keys_witness :
    { MultiAIManager.init with
        providers := [AIProvider.init 0 "OpenAI" "secret-key-A" "u" "gpt-4" 1000]
      : MultiAIManager }.save_configuration =
    { MultiAIManager.init with
        providers := [AIProvider.init 0 "OpenAI" "secret-key-B" "u" "gpt-4" 1000]
      : MultiAIManager }.save_configuration :=
  save_configuration_excludes_api_keys _ _
    (List.Forall₂.cons ⟨rfl, rfl, rfl, rfl⟩ List.Forall₂.nil)

/-- C6: the daily rollover is lazy and happens exactly once: when the stored
reset date is earlier than the current date, `reset_daily_counter` zeroes the
counter, stores the current date and restores availability; otherwise it is
the identity; it is idempotent for a fixed current date (so the reset happens
exactly once per rollover); and it is exactly what the accessors
(`can_send_message`, `get_provider_status`, `get_available_providers`) apply
to the stored provider state. -/
theorem daily_counter_lazy_reset (p : AIProvider) (today : Nat) (m : MultiAIManager) :
    (p.last_reset < today →
      p.reset_daily_counter today =
        { p with messages_used_today := 0, last_reset := today, is_available := true }) ∧
    (¬ p.last_reset < today → p.reset_daily_counter today = p) ∧
    (p.reset_daily_counter today).reset_daily_counter today = p.reset_daily_counter today ∧
    (p.can_send_message today).2 = p.reset_daily_counter today ∧
    (m.get_provider_status today).1.providers =
      m.providers.map (fun q => q.reset_daily_counter today) ∧
    (m.get_available_providers today).1.providers =
      m.providers.map (fun q => q.reset_daily_counter today) := by
  refine ⟨?_, ?_, ?_, rfl, rfl, rfl⟩
  · intro h; simp [AIProvider.reset_daily_counter, h]
  · intro h; simp [AIProvider.reset_daily_counter, h]
  · by_cases h : p.last_reset < today
    · simp [AIProvider.reset_daily_counter, h, lt_irrefl]
    · simp [AIProvider.reset_daily_counter, h]

/-- Witness for `daily_counter_lazy_reset`: an exhausted, unavailable
provider whose stored reset date 3 is earlier than the current date 4 is
reset (counter 0, availability restored) exactly once. -/
theorem daily_counter_lazy_reset_witness :
    ({ AIProvider.init 3 "OpenAI" "k" "u" "gpt-4" 9 with
        messages_used_today := 5, is_available := false } : AIProvider).reset_daily_counter 4 =
      { AIProvider.init 3 "OpenAI" "k" "u" "gpt-4" 9 with
        messages_used_today := 0, last_reset := 4, is_available := true } := by
  have h := (daily_counter_lazy_reset
    ({ AIProvider.init 3 "OpenAI" "k" "u" "gpt-4" 9 with
        messages_used_today := 5, is_available := false }) 4 MultiAIManager.init).1
    (by decide)
  simpa using h

/-- `getD` at a valid index is `get`. -/
theorem getD_of_lt {α : Type _} (l : List α) (d : α) (i : Nat) (h : i < l.length) :
    l.getD i d = l.get ⟨i, h⟩ := by
  rw [List.getD_eq_getElem?_getD, List.getElem?_eq_getElem h]
  rfl

/-- C8: if at least one provider is configured but every provider's stored
reset date equals the current date and every provider is unavailable or at
its quota, `send_message` fails with the daily-limit error, performs no
network attempt (empty trace), and leaves the state unchanged. -/
theorem send_message_all_providers_exhausted
    (today : Nat) (net : Nat → Except String HttpResponse) (m : MultiAIManager)
    (message : String) (pc : Bool)
    (hne : m.providers ≠ [])
    (hall : ∀ p ∈ m.providers, p.last_reset = today ∧
      (p.is_available = false ∨ p.daily_limit ≤ (p.messages_used_today : Int))) :
    m.send_message today net message pc =
      (SendResult.error "All AI providers have reached their daily limits", m, []) := by
  have hmap : m.providers.map (fun p => p.reset_daily_counter today) = m.providers := by
    have h : ∀ p ∈ m.providers, p.reset_daily_counter today = id p := by
      intro p hp
      have h1 := (hall p hp).1
      simp [AIProvider.reset_daily_counter, h1]
    rw [List.map_congr_left h, List.map_id]
  have hidx : ((List.range m.providers.length).filter (fun i =>
      let p := m.providers.getD i default
      p.is_available && (p.messages_used_today : Int) < p.daily_limit)) = [] := by
    rw [List.filter_eq_nil_iff]
    intro i hi
    have hlt : i < m.providers.length := List.mem_range.1 hi
    have hget : m.providers.getD i default = m.providers.get ⟨i, hlt⟩ :=
      getD_of_lt _ _ _ hlt
    have hmem := List.get_mem m.providers i hlt
    rcases hall _ hmem with ⟨-, hcase⟩
    simp only [List.get_eq_getElem] at hcase
    simp only [hget, List.get_eq_getElem, Bool.and_eq_true, decide_eq_true_eq, not_and, not_lt]
    rcases hcase with h | h
    · intro hav
      rw [h] at hav
      exact absurd hav (by decide)
    · intro _
      exact h
  have hne' : m.providers.isEmpty = false := by
    cases hh : m.providers with
    | nil => exact absurd hh hne
    | cons a t => rfl
  simp only [MultiAIManager.send_message, MultiAIManager.get_available_providers,
    hne', hmap, hidx]
  simp

/-- Witness for `send_message_all_providers_exhausted`: one provider with
daily quota 2 and 2 messages already used today (stored reset date equal to
the current date 6). -/
theorem send_message_all_providers_exhausted_witness :
    ({ MultiAIManager.init with
        providers := [{ AIProvider.init 6 "OpenAI" "k" "u" "gpt-4" 2 with
          messages_used_today := 2 }] } : MultiAIManager).send_message 6
        (fun _ => Except.ok ⟨200, "", "ok", 0⟩) "hi" true =
      (SendResult.error "All AI providers have reached their daily limits",
       { MultiAIManager.init with
          providers := [{ AIProvider.init 6 "OpenAI" "k" "u" "gpt-4" 2 with
            messages_used_today := 2 }] }, []) := by
  refine send_message_all_providers_exhausted 6 _ _ "hi" true (by decide) ?_
  intro p hp
  rw [List.mem_singleton] at hp
  subst hp
  exact ⟨rfl, Or.inr (by decide)⟩

/-- The quota invariant of a provider: a non-negative daily limit never
exceeded by the daily counter. -/
def QuotaInv (p : AIProvider) : Prop :=
  0 ≤ p.daily_limit ∧ (p.messages_used_today : Int) ≤ p.daily_limit

theorem quotaInv_default : QuotaInv default := by
  constructor <;> decide

theorem reset_quotaInv {p : AIProvider} (today : Nat) (hp : QuotaInv p) :
    QuotaInv (p.reset_daily_counter today) := by
  unfold AIProvider.reset_daily_counter
  split
  · exact ⟨hp.1, by simpa using hp.1⟩
  · exact hp

theorem can_send_quota {p : AIProvider} {today : Nat}
    (h : (p.can_send_message today).1 = true) :
    ((p.reset_daily_counter today).messages_used_today : Int) <
      (p.reset_daily_counter today).daily_limit ∧
    (p.reset_daily_counter today).is_available = true := by
  unfold AIProvider.can_send_message at h
  simp at h
  exact ⟨h.2, h.1⟩

theorem handle_openai_quotaInv (q : AIProvider) (net : Except String HttpResponse)
    (msg : String) (ctx : Option (List Msg))
    (hq : QuotaInv q) (hlt : (q.messages_used_today : Int) < q.daily_limit) :
    QuotaInv (handleOutcome (q.send_openai_message net msg ctx)).2.1 := by
  unfold AIProvider.send_openai_message handleOutcome
  rcases net with e | resp
  · exact hq
  · by_cases h200 : resp.status_code == 200
    · simp only [h200, if_true]
      exact ⟨hq.1, by push_cast; omega⟩
    · by_cases hrl : rateLimitSignal resp.text
      · simp only [h200, if_false, Bool.false_eq_true, hrl, if_true]
        exact hq
      · simp only [h200, if_false, Bool.false_eq_true, hrl, if_true]
        exact hq

theorem handle_claude_quotaInv (q : AIProvider) (net : Except String HttpResponse)
    (msg : String) (ctx : Option (List Msg))
    (hq : QuotaInv q) (hlt : (q.messages_used_today : Int) < q.daily_limit) :
    QuotaInv (handleOutcome (q.send_claude_message net msg ctx)).2.1 := by
  unfold AIProvider.send_claude_message handleOutcome
  rcases net with e | resp
  · exact hq
  · by_cases h200 : resp.status_code == 200
    · simp only [h200, if_true]
      exact ⟨hq.1, by push_cast; omega⟩
    · by_cases hrl : rateLimitSignal resp.text
      · simp only [h200, if_false, Bool.false_eq_true, hrl, if_true]
        exact hq
      · simp only [h200, if_false, Bool.false_eq_true, hrl, if_true]
        exact hq

theorem send_quotaInv (p : AIProvider) (today : Nat)
    (net : Except String HttpResponse) (msg : String) (ctx : Option (List Msg))
    (hp : QuotaInv p) : QuotaInv (p.send_message today net msg ctx).2.1 := by
  have hq : QuotaInv (p.reset_daily_counter today) := reset_quotaInv today hp
  unfold AIProvider.send_message
  by_cases hcs : (p.can_send_message today).1 = false
  · simp only [hcs, if_true]
    exact hq
  · have hlt := (can_send_quota (by simpa using hcs)).1
    simp only [hcs, if_false]
    by_cases h1 : pyLower (p.can_send_message today).2.name = "openai"
    · simp only [h1, if_true]
      exact handle_openai_quotaInv _ _ _ _ hq hlt
    · by_cases h2 : pyLower (p.can_send_message today).2.name = "claude"
      · simp only [h1, h2, if_false, if_true]
        exact handle_claude_quotaInv _ _ _ _ hq hlt
      · by_cases h3 : pyLower (p.can_send_message today).2.name = "deepseek"
        · simp only [h1, h2, h3, if_false, if_true]
          exact handle_openai_quotaInv _ _ _ _ hq hlt
        · simp only [h1, h2, h3, if_false]
          exact hq

theorem handle_openai_counter (q : AIProvider) (net : Except String HttpResponse)
    (msg : String) (ctx : Option (List Msg)) :
    (handleOutcome (q.send_openai_message net msg ctx)).2.1.messages_used_today =
        q.messages_used_today ∨
    (handleOutcome (q.send_openai_message net msg ctx)).2.1.messages_used_today =
        q.messages_used_today + 1 := by
  unfold AIProvider.send_openai_message handleOutcome
  rcases net with e | resp
  · exact Or.inl rfl
  · by_cases h200 : resp.status_code == 200
    · simp [h200]
    · by_cases hrl : rateLimitSignal resp.text
      · simp [h200, hrl]
      · simp [h200, hrl]

theorem handle_claude_counter (q : AIProvider) (net : Except String HttpResponse)
    (msg : String) (ctx : Option (List Msg)) :
    (handleOutcome (q.send_claude_message net msg ctx)).2.1.messages_used_today =
        q.messages_used_today ∨
    (handleOutcome (q.send_claude_message net msg ctx)).2.1.messages_used_today =
        q.messages_used_today + 1 := by
  unfold AIProvider.send_claude_message handleOutcome
  rcases net with e | resp
  · exact Or.inl rfl
  · by_cases h200 : resp.status_code == 200
    · simp [h200]
    · by_cases hrl : rateLimitSignal resp.text
      · simp [h200, hrl]
      · simp [h200, hrl]

theorem send_counter_guarded (p : AIProvider) (today : Nat)
    (net : Except String HttpResponse) (msg : String) (ctx : Option (List Msg)) :
    (p.send_message today net msg ctx).2.1.messages_used_today =
      (p.reset_daily_counter today).messages_used_today ∨
    ((p.can_send_message today).1 = true ∧
     (p.send_message today net msg ctx).2.1.messages_used_today =
       (p.reset_daily_counter today).messages_used_today + 1) := by
  by_cases hcs : (p.can_send_message today).1 = false
  · have heq : p.send_message today net msg ctx =
        (SendResult.error ("Daily limit reached for " ++ (p.can_send_message today).2.name),
          (p.can_send_message today).2, ctx) := by
      unfold AIProvider.send_message
      simp only [hcs, if_true]
    rw [heq]
    exact Or.inl rfl
  · have hcst : (p.can_send_message today).1 = true := by simpa using hcs
    by_cases h1 : pyLower (p.can_send_message today).2.name = "openai"
    · have heq : p.send_message today net msg ctx =
          handleOutcome ((p.can_send_message today).2.send_openai_message net msg ctx) := by
        unfold AIProvider.send_message
        simp [hcst, h1]
      rw [heq]
      rcases handle_openai_counter (p.can_send_message today).2 net msg ctx with h | h
      · exact Or.inl h
      · exact Or.inr ⟨hcst, h⟩
    · by_cases h2 : pyLower (p.can_send_message today).2.name = "claude"
      · have heq : p.send_message today net msg ctx =
            handleOutcome ((p.can_send_message today).2.send_claude_message net msg ctx) := by
          unfold AIProvider.send_message
          simp [hcst, h1, h2]
        rw [heq]
        rcases handle_claude_counter (p.can_send_message today).2 net msg ctx with h | h
        · exact Or.inl h
        · exact Or.inr ⟨hcst, h⟩
      · by_cases h3 : pyLower (p.can_send_message today).2.name = "deepseek"
        · have heq : p.send_message today net msg ctx =
              handleOutcome ((p.can_send_message today).2.send_deepseek_message net msg ctx) := by
            unfold AIProvider.send_message
            simp [hcst, h1, h2, h3]
          rw [heq]
          rcases handle_openai_counter (p.can_send_message today).2 net msg ctx with h | h
          · exact Or.inl h
          · exact Or.inr ⟨hcst, h⟩
        · have heq : p.send_message today net msg ctx =
              (SendResult.error ("Unknown provider: " ++ (p.can_send_message today).2.name),
                (p.can_send_message today).2, ctx) := by
            unfold AIProvider.send_message
            simp [hcst, h1, h2, h3]
          rw [heq]
          exact Or.inl rfl


theorem sendLoop_quotaInv (today : Nat) (net : Nat → Except String HttpResponse)
    (msg : String) (pc : Bool) (avail : List Nat) :
    ∀ (fuel i : Nat) (m : MultiAIManager),
      (∀ p ∈ m.providers, QuotaInv p) →
      ∀ p ∈ (MultiAIManager.sendLoop today net msg pc avail fuel m i).2.1.providers,
        QuotaInv p := by
  intro fuel
  induction fuel with
  | zero =>
    intro i m hm
    simpa [MultiAIManager.sendLoop] using hm
  | succ fuel ih =>
    intro i m hm
    have hpj : QuotaInv (m.providers.getD
        (avail.getD ((m.current_provider_index + i) % avail.length) 0) default) := by
      rcases Nat.lt_or_ge (avail.getD ((m.current_provider_index + i) % avail.length) 0)
          m.providers.length with h | h
      · rw [getD_of_lt _ _ _ h]
        exact hm _ (List.get_mem _ _ h)
      · rw [List.getD_eq_default _ _ h]
        exact quotaInv_default
    have hset : ∀ x ∈ m.providers.set
        (avail.getD ((m.current_provider_index + i) % avail.length) 0)
        ((m.providers.getD (avail.getD ((m.current_provider_index + i) % avail.length) 0)
            default).send_message today
          (net (avail.getD ((m.current_provider_index + i) % avail.length) 0)) msg
          (if pc then some m.conversation_context else none)).2.1, QuotaInv x := by
      intro x hx
      rcases List.mem_or_eq_of_mem_set hx with h | h
      · exact hm _ h
      · subst h
        exact send_quotaInv _ _ _ _ _ hpj
    rw [MultiAIManager.sendLoop]
    rcases hres : ((m.providers.getD
        (avail.getD ((m.current_provider_index + i) % avail.length) 0)
        default).send_message today
          (net (avail.getD ((m.current_provider_index + i) % avail.length) 0)) msg
          (if pc then some m.conversation_context else none)).1 with ⟨r, prov, tok⟩ | e
    · simp only [hres]
      cases pc
      · exact hset
      · exact hset
    · simp only [hres]
      cases pc
      · exact ih (i + 1) _ hset
      · exact ih (i + 1) _ hset

/-- C10: with a non-negative daily limit, `messages_used_today ≤ daily_limit`
holds at creation and is preserved by the daily rollover, by every individual
provider send (the counter changes only when the `can_send_message` guard
held, and then by exactly one), and by every router `send_message` call (for
every provider in the list). -/
theorem quota_invariant_preserved :
    (∀ (today : Nat) (name api_key base_url model : String) (lim : Int),
      0 ≤ lim → QuotaInv (AIProvider.init today name api_key base_url model lim)) ∧
    (∀ (p : AIProvider) (today : Nat), QuotaInv p →
      QuotaInv (p.reset_daily_counter today)) ∧
    (∀ (p : AIProvider) (today : Nat) (net : Except String HttpResponse)
      (msg : String) (ctx : Option (List Msg)), QuotaInv p →
      QuotaInv (p.send_message today net msg ctx).2.1) ∧
    (∀ (p : AIProvider) (today : Nat) (net : Except String HttpResponse)
      (msg : String) (ctx : Option (List Msg)),
      (p.send_message today net msg ctx).2.1.messages_used_today =
        (p.reset_daily_counter today).messages_used_today ∨
      ((p.can_send_message today).1 = true ∧
       (p.send_message today net msg ctx).2.1.messages_used_today =
         (p.reset_daily_counter today).messages_used_today + 1)) ∧
    (∀ (today : Nat) (net : Nat → Except String HttpResponse) (m : MultiAIManager)
      (msg : String) (pc : Bool), (∀ p ∈ m.providers, QuotaInv p) →
      ∀ p ∈ (m.send_message today net msg pc).2.1.providers, QuotaInv p) := by
  refine ⟨?_, ?_, ?_, ?_, ?_⟩
  · intro today name api_key base_url model lim hlim
    exact ⟨hlim, by simpa using hlim⟩
  · intro p today hp
    exact reset_quotaInv today hp
  · intro p today net msg ctx hp
    exact send_quotaInv p today net msg ctx hp
  · intro p today net msg ctx
    exact send_counter_guarded p today net msg ctx
  · intro today net m msg pc hm
    have hm1 : ∀ p ∈ (m.get_available_providers today).1.providers, QuotaInv p := by
      intro p hp
      rw [show (m.get_available_providers today).1.providers
            = m.providers.map (fun q => q.reset_daily_counter today) from rfl] at hp
      rcases List.mem_map.1 hp with ⟨q, hq, rfl⟩
      exact reset_quotaInv today (hm _ hq)
    by_cases hemp : m.providers.isEmpty
    · simp only [MultiAIManager.send_message, hemp, if_true]
      exact hm
    · by_cases hav : (m.get_available_providers today).2.isEmpty
      · simp only [MultiAIManager.send_message, hemp, hav, if_false, if_true]
        exact hm1
      · simp only [MultiAIManager.send_message, hemp, hav, if_false]
        exact sendLoop_quotaInv today net msg pc _ _ 0 _ hm1

/-- Witness for `quota_invariant_preserved`: a freshly created provider with
limit 1000 satisfies the invariant, and a router call on a one-provider
manager keeps it for every provider in the list. -/
theorem quota_invariant_preserved_witness :
    QuotaInv (AIProvider.init 0 "OpenAI" "k" "u" "gpt-4" 1000) ∧
    (∀ p ∈ (({ MultiAIManager.init with
        providers := [AIProvider.init 0 "OpenAI" "k" "u" "gpt-4" 1000] } :
        MultiAIManager).send_message 0 (fun _ => Except.ok ⟨200, "", "ok", 1⟩)
        "hi" true).2.1.providers, QuotaInv p) :=
  ⟨quota_invariant_preserved.1 0 "OpenAI" "k" "u" "gpt-4" 1000 (by decide),
   quota_invariant_preserved.2.2.2.2 0 _ _ "hi" true (by
     intro p hp
     rw [List.mem_singleton] at hp
     subst hp
     exact ⟨by decide, by decide⟩)⟩

/-- Known provider names: the dispatch targets of `AIProvider.send_message`. -/
def isKnownProvider (name : String) : Bool :=
  pyLower name == "openai" || pyLower name == "claude" || pyLower name == "deepseek"

/-- C2 counterexample: an attempt that fails with a non-2xx response whose
body carries no rate-limit signal (HTTP 500, body `"server error"`) does NOT
mark the provider unavailable — the availability flag stays `true` — so a
failed attempt alone does not make the provider unavailable for the day. -/
theorem non_rate_limit_failure_leaves_available :
    ((AIProvider.init 5 "OpenAI" "k" "https://api.openai.com/v1" "gpt-4" 1000).send_message 5
        (Except.ok ⟨500, "server error", "", 0⟩) "hi" none).1 =
      SendResult.error "HTTP 500: server error" ∧
    ((AIProvider.init 5 "OpenAI" "k" "https://api.openai.com/v1" "gpt-4" 1000).send_message 5
        (Except.ok ⟨500, "server error", "", 0⟩) "hi" none).2.1.is_available = true := by
  constructor
  · decide
  · decide

theorem reset_preserves_name (p : AIProvider) (today : Nat) :
    (p.reset_daily_counter today).name = p.name := by
  unfold AIProvider.reset_daily_counter
  split <;> rfl

theorem reset_of_not_lt {x : AIProvider} {d : Nat} (h : ¬ x.last_reset < d) :
    x.reset_daily_counter d = x := by
  unfold AIProvider.reset_daily_counter
  rw [if_neg h]

theorem reset_avail_of_lt {x : AIProvider} {d : Nat} (h : x.last_reset < d) :
    (x.reset_daily_counter d).is_available = true := by
  unfold AIProvider.reset_daily_counter
  rw [if_pos h]

theorem handle_openai_fail (q : AIProvider) (resp : HttpResponse) (msg : String)
    (ctx : Option (List Msg)) (hstat : (resp.status_code == 200) = false) :
    (handleOutcome (q.send_openai_message (Except.ok resp) msg ctx)).1 =
      SendResult.error ("HTTP " ++ toString resp.status_code ++ ": " ++ resp.text) ∧
    (handleOutcome (q.send_openai_message (Except.ok resp) msg ctx)).2.1 =
      (if rateLimitSignal resp.text then { q with is_available := false } else q) := by
  unfold AIProvider.send_openai_message handleOutcome
  simp only [hstat, Bool.false_eq_true, if_false]
  by_cases hrl : rateLimitSignal resp.text
  · simp [hrl]
  · simp [hrl]

theorem handle_claude_fail (q : AIProvider) (resp : HttpResponse) (msg : String)
    (ctx : Option (List Msg)) (hstat : (resp.status_code == 200) = false) :
    (handleOutcome (q.send_claude_message (Except.ok resp) msg ctx)).1 =
      SendResult.error ("HTTP " ++ toString resp.status_code ++ ": " ++ resp.text) ∧
    (handleOutcome (q.send_claude_message (Except.ok resp) msg ctx)).2.1 =
      (if rateLimitSignal resp.text then { q with is_available := false } else q) := by
  unfold AIProvider.send_claude_message handleOutcome
  simp only [hstat, Bool.false_eq_true, if_false]
  by_cases hrl : rateLimitSignal resp.text
  · simp [hrl]
  · simp [hrl]

theorem send_fail_provider (p : AIProvider) (today : Nat) (resp : HttpResponse)
    (msg : String) (ctx : Option (List Msg))
    (hcs : (p.can_send_message today).1 = true)
    (hname : isKnownProvider p.name = true)
    (hstat : (resp.status_code == 200) = false) :
    (p.send_message today (Except.ok resp) msg ctx).1 =
      SendResult.error ("HTTP " ++ toString resp.status_code ++ ": " ++ resp.text) ∧
    (p.send_message today (Except.ok resp) msg ctx).2.1 =
      (if rateLimitSignal resp.text then
        { p.reset_daily_counter today with is_available := false }
       else p.reset_daily_counter today) := by
  have hcst := hcs
  have hnm : pyLower (p.can_send_message today).2.name = pyLower p.name := by
    show pyLower (p.reset_daily_counter today).name = pyLower p.name
    rw [reset_preserves_name]
  simp only [isKnownProvider, Bool.or_eq_true, beq_iff_eq] at hname
  rcases hname with (h1 | h2) | h3
  · have heq : p.send_message today (Except.ok resp) msg ctx =
        handleOutcome ((p.can_send_message today).2.send_openai_message
          (Except.ok resp) msg ctx) := by
      unfold AIProvider.send_message
      simp [hcst, hnm, h1]
    rw [heq]
    exact handle_openai_fail _ _ _ _ hstat
  · have heq : p.send_message today (Except.ok resp) msg ctx =
        handleOutcome ((p.can_send_message today).2.send_claude_message
          (Except.ok resp) msg ctx) := by
      unfold AIProvider.send_message
      simp [hcst, hnm, h2]
    rw [heq]
    exact handle_claude_fail _ _ _ _ hstat
  · have heq : p.send_message today (Except.ok resp) msg ctx =
        handleOutcome ((p.can_send_message today).2.send_deepseek_message
          (Except.ok resp) msg ctx) := by
      unfold AIProvider.send_message
      simp [hcst, hnm, h3]
    rw [heq]
    exact handle_openai_fail _ _ _ _ hstat

/-- C2 (amended): when an individual send attempt fails with a non-2xx HTTP
response, the attempt yields an error result (the signal on which the router
moves on to the next candidate), and the provider is marked unavailable for
the remainder of the day exactly when a rate-limit signal is detected in the
error body: with the signal, availability becomes `false` and is not restored
by the lazy reset on any date up to the stored reset date (only a later date
restores it); without the signal, the availability flag keeps the value
`true` it had when the attempt was admitted. -/
theorem rate_limit_failure_marks_unavailable
    (p : AIProvider) (today : Nat) (resp : HttpResponse) (msg : String)
    (ctx : Option (List Msg))
    (hcs : (p.can_send_message today).1 = true)
    (hname : isKnownProvider p.name = true)
    (hstat : (resp.status_code == 200) = false) :
    (∃ e, (p.send_message today (Except.ok resp) msg ctx).1 = SendResult.error e) ∧
    (rateLimitSignal resp.text = true →
      (p.send_message today (Except.ok resp) msg ctx).2.1.is_available = false ∧
      (∀ d, ¬ (p.send_message today (Except.ok resp) msg ctx).2.1.last_reset < d →
        (((p.send_message today (Except.ok resp) msg ctx).2.1).reset_daily_counter
          d).is_available = false) ∧
      (∀ d, (p.send_message today (Except.ok resp) msg ctx).2.1.last_reset < d →
        (((p.send_message today (Except.ok resp) msg ctx).2.1).reset_daily_counter
          d).is_available = true)) ∧
    (rateLimitSignal resp.text = false →
      (p.send_message today (Except.ok resp) msg ctx).2.1.is_available = true) := by
  obtain ⟨herr, hprov⟩ := send_fail_provider p today resp msg ctx hcs hname hstat
  refine ⟨⟨_, herr⟩, ?_, ?_⟩
  · intro hrl
    rw [hprov, if_pos hrl]
    refine ⟨rfl, ?_, ?_⟩
    · intro d hd
      rw [reset_of_not_lt hd]
    · intro d hd
      exact reset_avail_of_lt hd
  · intro hrl
    rw [hprov, if_neg (by simp [hrl])]
    exact (can_send_quota hcs).2

/-- Witness for `rate_limit_failure_marks_unavailable`: a Claude provider
receiving HTTP 429 with `"Rate_Limit exceeded"` in the body is marked
unavailable; the same provider receiving HTTP 500 with `"server error"`
stays available. -/
theorem rate_limit_failure_marks_unavailable_witness :
    ((AIProvider.init 5 "Claude" "k" "u" "claude-3" 1000).send_message 5
        (Except.ok ⟨429, "Rate_Limit exceeded", "", 0⟩) "hi" none).2.1.is_available = false ∧
    ((AIProvider.init 5 "Claude" "k" "u" "claude-3" 1000).send_message 5
        (Except.ok ⟨500, "server error", "", 0⟩) "hi" none).2.1.is_available = true := by
  constructor
  · exact ((rate_limit_failure_marks_unavailable
      (AIProvider.init 5 "Claude" "k" "u" "claude-3" 1000) 5
      ⟨429, "Rate_Limit exceeded", "", 0⟩ "hi" none
      (by decide) (by decide) (by decide)).2.1 (by decide)).1
  · exact (rate_limit_failure_marks_unavailable
      (AIProvider.init 5 "Claude" "k" "u" "claude-3" 1000) 5
      ⟨500, "server error", "", 0⟩ "hi" none
      (by decide) (by decide) (by decide)).2.2 (by decide)

/-- C3: code-bug evidence.  With the shared context at the cap (20 entries)
and a single OpenAI provider whose attempt fails with HTTP 500, the call
returns the aggregate failure, yet the shared conversation context has grown
to 21 entries — `_send_openai_message` appends the user message to the
caller's context list (`messages = context or []` aliases it) before the
request, and the failure path never trims, so the cap is exceeded. -/
theorem context_cap_exceeded_on_failed_send :
    (({ providers := [AIProvider.init 5 "OpenAI" "k" "u" "gpt-4" 1000],
        conversation_context := List.replicate 20 ⟨"user", "x"⟩,
        current_provider_index := 0, max_context_length := 20 } :
        MultiAIManager).send_message 5
        (fun _ => Except.ok ⟨500, "server error", "", 0⟩) "hi" true).1 =
      SendResult.error "All available providers failed to respond" ∧
    (({ providers := [AIProvider.init 5 "OpenAI" "k" "u" "gpt-4" 1000],
        conversation_context := List.replicate 20 ⟨"user", "x"⟩,
        current_provider_index := 0, max_context_length := 20 } :
        MultiAIManager).send_message 5
        (fun _ => Except.ok ⟨500, "server error", "", 0⟩) "hi" true).2.1.conversation_context.length
      = 21 := by
  constructor
  · decide
  · decide

/-- C4: code-bug evidence.  First conjunct: a successful OpenAI send over a
non-empty context appends `[user, user, assistant]` — the user turn is
duplicated, because `_send_openai_message` has already appended it to the
aliased shared list before the router appends the (user, assistant) pair —
instead of exactly the (user, assistant) pair.  Second conjunct: a send in
which no provider attempt succeeds still mutates the shared context (the
aliased user-message append survives the failure). -/
theorem context_mutated_beyond_success_turn :
    (({ providers := [AIProvider.init 5 "OpenAI" "k" "u" "gpt-4" 1000],
        conversation_context := [⟨"user", "a"⟩, ⟨"assistant", "b"⟩],
        current_provider_index := 0, max_context_length := 20 } :
        MultiAIManager).send_message 5
        (fun _ => Except.ok ⟨200, "", "ok", 7⟩) "hi" true).2.1.conversation_context =
      [⟨"user", "a"⟩, ⟨"assistant", "b"⟩, ⟨"user", "hi"⟩, ⟨"user", "hi"⟩,
        ⟨"assistant", "ok"⟩] ∧
    (({ providers := [AIProvider.init 5 "OpenAI" "k" "u" "gpt-4" 1000],
        conversation_context := [⟨"user", "a"⟩, ⟨"assistant", "b"⟩],
        current_provider_index := 0, max_context_length := 20 } :
        MultiAIManager).send_message 5
        (fun _ => Except.ok ⟨500, "server error", "", 0⟩) "hi" true).2.1.conversation_context =
      [⟨"user", "a"⟩, ⟨"assistant", "b"⟩, ⟨"user", "hi"⟩] := by
  constructor
  · decide
  · decide

/-- The provider index (into the manager's provider list) targeted by loop
iteration `i` of `sendLoop` when the remembered rotation index is `s`:
`available_providers[(s + i) % len(available_providers)]`. -/
def rotTarget (avail : List Nat) (s i : Nat) : Nat :=
  avail.getD ((s + i) % avail.length) 0

/-- Whether the attempt on provider index `j` (provider state taken from
`ps`, response from `net j`) returns a success dict. -/
def attemptWins (today : Nat) (net : Nat → Except String HttpResponse)
    (ps : List AIProvider) (msg : String) (j : Nat) : Bool :=
  (((ps.getD j default).send_message today (net j) msg none).1).isSuccess

/-- The first iteration count `k` (scanning `fuel` iterations starting at
`i`) for which `ok k` holds. -/
def firstWinFrom (ok : Nat → Bool) : Nat → Nat → Option Nat
  | _, 0 => none
  | i, fuel + 1 => if ok i then some i else firstWinFrom ok (i + 1) fuel

theorem rot_pos_inj {n s i i' : Nat} (hi : i < n) (hi' : i' < n)
    (h : (s + i) % n = (s + i') % n) : i = i' := by
  by_contra hne
  rcases Nat.lt_or_ge i i' with hlt | hge
  · have hmod : Nat.ModEq n (s + i) (s + i') := h
    have hdvd := (Nat.modEq_iff_dvd' (by omega)).1 hmod
    have heq : s + i' - (s + i) = i' - i := by omega
    rw [heq] at hdvd
    have := Nat.eq_zero_of_dvd_of_lt hdvd (by omega)
    omega
  · have hlt : i' < i := by omega
    have hmod : Nat.ModEq n (s + i') (s + i) := h.symm
    have hdvd := (Nat.modEq_iff_dvd' (by omega)).1 hmod
    have heq : s + i - (s + i') = i - i' := by omega
    rw [heq] at hdvd
    have := Nat.eq_zero_of_dvd_of_lt hdvd (by omega)
    omega

theorem rotTarget_inj (avail : List Nat) (hnd : avail.Nodup) {s i i' : Nat}
    (hi : i < avail.length) (hi' : i' < avail.length)
    (h : rotTarget avail s i = rotTarget avail s i') : i = i' := by
  have hn : 0 < avail.length := by omega
  have hmi : (s + i) % avail.length < avail.length := Nat.mod_lt _ hn
  have hmi' : (s + i') % avail.length < avail.length := Nat.mod_lt _ hn
  unfold rotTarget at h
  rw [getD_of_lt _ _ _ hmi, getD_of_lt _ _ _ hmi'] at h
  have hfin := (List.Nodup.get_inj_iff hnd).1 h
  have hpos : (s + i) % avail.length = (s + i') % avail.length :=
    congrArg Fin.val hfin
  exact rot_pos_inj hi hi' hpos

theorem firstWinFrom_some (ok : Nat → Bool) :
    ∀ (fuel i k : Nat), firstWinFrom ok i fuel = some k →
      i ≤ k ∧ k < i + fuel ∧ ok k = true ∧ ∀ t, i ≤ t → t < k → ok t = false := by
  intro fuel
  induction fuel with
  | zero => intro i k h; cases h
  | succ fuel ih =>
    intro i k h
    unfold firstWinFrom at h
    by_cases hok : ok i
    · rw [if_pos hok] at h
      cases h
      exact ⟨le_refl _, by omega, hok, fun t ht1 ht2 => by omega⟩
    · rw [if_neg hok] at h
      obtain ⟨h1, h2, h3, h4⟩ := ih (i + 1) k h
      refine ⟨by omega, by omega, h3, ?_⟩
      intro t ht1 ht2
      rcases Nat.eq_or_lt_of_le ht1 with heq | hlt
      · rw [← heq]
        simpa using hok
      · exact h4 t (by omega) ht2

theorem firstWinFrom_none (ok : Nat → Bool) :
    ∀ (fuel i : Nat), firstWinFrom ok i fuel = none →
      ∀ t, i ≤ t → t < i + fuel → ok t = false := by
  intro fuel
  induction fuel with
  | zero => intro i _ t ht1 ht2; omega
  | succ fuel ih =>
    intro i h t ht1 ht2
    unfold firstWinFrom at h
    by_cases hok : ok i
    · rw [if_pos hok] at h
      cases h
    · rw [if_neg hok] at h
      rcases Nat.eq_or_lt_of_le ht1 with heq | hlt
      · rw [← heq]
        simpa using hok
      · exact ih (i + 1) h t (by omega) (by omega)

theorem openai_ctx_irrelevant (q : AIProvider) (net : Except String HttpResponse)
    (msg : String) (ctx : Option (List Msg)) :
    (handleOutcome (q.send_openai_message net msg ctx)).1 =
      (handleOutcome (q.send_openai_message net msg none)).1 ∧
    (handleOutcome (q.send_openai_message net msg ctx)).2.1 =
      (handleOutcome (q.send_openai_message net msg none)).2.1 := by
  unfold AIProvider.send_openai_message handleOutcome
  rcases net with e | resp
  · exact ⟨rfl, rfl⟩
  · by_cases h200 : resp.status_code == 200
    · simp [h200]
    · by_cases hrl : rateLimitSignal resp.text <;> simp [h200, hrl]

theorem claude_ctx_irrelevant (q : AIProvider) (net : Except String HttpResponse)
    (msg : String) (ctx : Option (List Msg)) :
    (handleOutcome (q.send_claude_message net msg ctx)).1 =
      (handleOutcome (q.send_claude_message net msg none)).1 ∧
    (handleOutcome (q.send_claude_message net msg ctx)).2.1 =
      (handleOutcome (q.send_claude_message net msg none)).2.1 := by
  unfold AIProvider.send_claude_message handleOutcome
  rcases net with e | resp
  · exact ⟨rfl, rfl⟩
  · by_cases h200 : resp.status_code == 200
    · simp [h200]
    · by_cases hrl : rateLimitSignal resp.text <;> simp [h200, hrl]

/-- The result dict and the updated provider state of a provider-level send
do not depend on the passed context (only the returned shared-context
component does). -/
theorem send_ctx_irrelevant (p : AIProvider) (today : Nat)
    (net : Except String HttpResponse) (msg : String) (ctx : Option (List Msg)) :
    (p.send_message today net msg ctx).1 = (p.send_message today net msg none).1 ∧
    (p.send_message today net msg ctx).2.1 = (p.send_message today net msg none).2.1 := by
  by_cases hcs : (p.can_send_message today).1 = false
  · have h1 : ∀ c, p.send_message today net msg c =
        (SendResult.error ("Daily limit reached for " ++ (p.can_send_message today).2.name),
          (p.can_send_message today).2, c) := by
      intro c
      unfold AIProvider.send_message
      simp only [hcs, if_true]
    rw [h1 ctx, h1 none]
    exact ⟨rfl, rfl⟩
  · have hcst : (p.can_send_message today).1 = true := by simpa using hcs
    by_cases h1 : pyLower (p.can_send_message today).2.name = "openai"
    · have heq : ∀ c, p.send_message today net msg c =
          handleOutcome ((p.can_send_message today).2.send_openai_message net msg c) := by
        intro c
        unfold AIProvider.send_message
        simp [hcst, h1]
      rw [heq ctx, heq none]
      exact openai_ctx_irrelevant _ _ _ _
    · by_cases h2 : pyLower (p.can_send_message today).2.name = "claude"
      · have heq : ∀ c, p.send_message today net msg c =
            handleOutcome ((p.can_send_message today).2.send_claude_message net msg c) := by
          intro c
          unfold AIProvider.send_message
          simp [hcst, h1, h2]
        rw [heq ctx, heq none]
        exact claude_ctx_irrelevant _ _ _ _
      · by_cases h3 : pyLower (p.can_send_message today).2.name = "deepseek"
        · have heq : ∀ c, p.send_message today net msg c =
              handleOutcome ((p.can_send_message today).2.send_deepseek_message net msg c) := by
            intro c
            unfold AIProvider.send_message
            simp [hcst, h1, h2, h3]
          rw [heq ctx, heq none]
          exact openai_ctx_irrelevant _ _ _ _
        · have h4 : ∀ c, p.send_message today net msg c =
              (SendResult.error ("Unknown provider: " ++ (p.can_send_message today).2.name),
                (p.can_send_message today).2, c) := by
            intro c
            unfold AIProvider.send_message
            simp [hcst, h1, h2, h3]
          rw [h4 ctx, h4 none]
          exact ⟨rfl, rfl⟩

theorem getD_set_self {α : Type _} (l : List α) (j : Nat) (a d : α)
    (h : j < l.length) : (l.set j a).getD j d = a := by
  rw [List.getD_eq_getElem?_getD, List.getElem?_set_self h]
  rfl

theorem getD_set_ne {α : Type _} (l : List α) {j x : Nat} (a d : α)
    (h : j ≠ x) : (l.set j a).getD x d = l.getD x d := by
  rw [List.getD_eq_getElem?_getD, List.getElem?_set_ne h, ← List.getD_eq_getElem?_getD]

/-- Full characterisation of the `sendLoop` iteration entered at `i` with
`fuel + i = len(avail)`, relative to the provider states `ps1` and rotation
index `s` at loop entry: the loop attempts providers in rotation order,
stopping at the first winning attempt (`firstWinFrom`); on a win it returns
that attempt's result, the trace of the attempts made so far, the rotation
index of the winner and the winner's updated provider state; if no attempt
wins it returns the aggregate error with the full trace and an unchanged
rotation index. -/
theorem sendLoop_spec (today : Nat) (net : Nat → Except String HttpResponse)
    (msg : String) (pc : Bool) (avail : List Nat) (ps1 : List AIProvider) (s : Nat)
    (hnd : avail.Nodup) (hval : ∀ x ∈ avail, x < ps1.length) :
    ∀ (fuel i : Nat) (m : MultiAIManager), fuel + i = avail.length →
      m.current_provider_index = s →
      m.providers.length = ps1.length →
      (∀ i', i ≤ i' → i' < avail.length →
        m.providers.getD (rotTarget avail s i') default =
          ps1.getD (rotTarget avail s i') default) →
      (match firstWinFrom
          (fun t => attemptWins today net ps1 msg (rotTarget avail s t)) i fuel with
       | some k =>
         (MultiAIManager.sendLoop today net msg pc avail fuel m i).1 =
           ((ps1.getD (rotTarget avail s k) default).send_message today
             (net (rotTarget avail s k)) msg none).1 ∧
         (MultiAIManager.sendLoop today net msg pc avail fuel m i).2.2 =
           (List.range' i (k + 1 - i)).map (rotTarget avail s) ∧
         (MultiAIManager.sendLoop today net msg pc avail fuel m i).2.1.current_provider_index =
           (s + k) % avail.length ∧
         (MultiAIManager.sendLoop today net msg pc avail fuel m i).2.1.providers.getD
             (rotTarget avail s k) default =
           ((ps1.getD (rotTarget avail s k) default).send_message today
             (net (rotTarget avail s k)) msg none).2.1
       | none =>
         (MultiAIManager.sendLoop today net msg pc avail fuel m i).1 =
           SendResult.error "All available providers failed to respond" ∧
         (MultiAIManager.sendLoop today net msg pc avail fuel m i).2.2 =
           (List.range' i fuel).map (rotTarget avail s) ∧
         (MultiAIManager.sendLoop today net msg pc avail fuel m i).2.1.current_provider_index
           = s) := by
  intro fuel
  induction fuel with
  | zero =>
    intro i m hfi hs hlen hag
    refine ⟨rfl, by simp [MultiAIManager.sendLoop], hs⟩
  | succ fuel ih =>
    intro i m hfi hs hlen hag
    have hi : i < avail.length := by omega
    have hn : 0 < avail.length := by omega
    have hmlt : (s + i) % avail.length < avail.length := Nat.mod_lt _ hn
    have hjmem : rotTarget avail s i ∈ avail := by
      rw [rotTarget, getD_of_lt _ _ _ hmlt]
      exact List.get_mem _ _ hmlt
    have hjlt : rotTarget avail s i < ps1.length := hval _ hjmem
    have hjlt' : rotTarget avail s i < m.providers.length := by omega
    have hpag : m.providers.getD (rotTarget avail s i) default =
        ps1.getD (rotTarget avail s i) default := hag i (le_refl i) hi
    -- the scrutinee of the loop body, rewritten to the reference data
    have hstep1 : ((m.providers.getD
          (avail.getD ((m.current_provider_index + i) % avail.length) 0)
          default).send_message today
            (net (avail.getD ((m.current_provider_index + i) % avail.length) 0)) msg
            (if pc then some m.conversation_context else none)).1 =
        ((ps1.getD (rotTarget avail s i) default).send_message today
          (net (rotTarget avail s i)) msg none).1 := by
      rw [hs]
      show ((m.providers.getD (rotTarget avail s i) default).send_message today
        (net (rotTarget avail s i)) msg
        (if pc then some m.conversation_context else none)).1 = _
      rw [hpag]
      exact (send_ctx_irrelevant _ _ _ _ _).1
    have hstep2 : ((m.providers.getD
          (avail.getD ((m.current_provider_index + i) % avail.length) 0)
          default).send_message today
            (net (avail.getD ((m.current_provider_index + i) % avail.length) 0)) msg
            (if pc then some m.conversation_context else none)).2.1 =
        ((ps1.getD (rotTarget avail s i) default).send_message today
          (net (rotTarget avail s i)) msg none).2.1 := by
      rw [hs]
      show ((m.providers.getD (rotTarget avail s i) default).send_message today
        (net (rotTarget avail s i)) msg
        (if pc then some m.conversation_context else none)).2.1 = _
      rw [hpag]
      exact (send_ctx_irrelevant _ _ _ _ _).2
    by_cases hwin : attemptWins today net ps1 msg (rotTarget avail s i)
    · -- the attempt at iteration i wins
      have hfw : firstWinFrom
          (fun t => attemptWins today net ps1 msg (rotTarget avail s t)) i (fuel + 1) =
          some i := by
        have hstepfw : firstWinFrom
            (fun t => attemptWins today net ps1 msg (rotTarget avail s t)) i (fuel + 1) =
            if attemptWins today net ps1 msg (rotTarget avail s i) then some i
            else firstWinFrom
              (fun t => attemptWins today net ps1 msg (rotTarget avail s t)) (i + 1) fuel := rfl
        rw [hstepfw, if_pos hwin]
      rw [hfw]
      obtain ⟨r, prov, tok, hres⟩ : ∃ r prov tok,
          ((ps1.getD (rotTarget avail s i) default).send_message today
            (net (rotTarget avail s i)) msg none).1 = SendResult.success r prov tok := by
        rcases hres' : ((ps1.getD (rotTarget avail s i) default).send_message today
            (net (rotTarget avail s i)) msg none).1 with ⟨r, prov, tok⟩ | e
        · exact ⟨r, prov, tok, rfl⟩
        · rw [attemptWins, hres'] at hwin
          simp [SendResult.isSuccess] at hwin
      rw [MultiAIManager.sendLoop]
      simp only [hstep1, hres]
      refine ⟨trivial, ?_, ?_, ?_⟩
      · have : i + 1 - i = 1 := by omega
        rw [this, List.range'_succ]
        simp [rotTarget, hs]
      · simp [hs]
      · rw [hs]
        show (m.providers.set (rotTarget avail s i) _).getD (rotTarget avail s i) default = _
        rw [getD_set_self _ _ _ _ hjlt']
        rw [hs] at hstep2
        exact hstep2
    · -- the attempt at iteration i fails; the loop continues at i + 1
      have hfw : firstWinFrom
          (fun t => attemptWins today net ps1 msg (rotTarget avail s t)) i (fuel + 1) =
          firstWinFrom
            (fun t => attemptWins today net ps1 msg (rotTarget avail s t)) (i + 1) fuel := by
        have hstepfw : firstWinFrom
            (fun t => attemptWins today net ps1 msg (rotTarget avail s t)) i (fuel + 1) =
            if attemptWins today net ps1 msg (rotTarget avail s i) then some i
            else firstWinFrom
              (fun t => attemptWins today net ps1 msg (rotTarget avail s t)) (i + 1) fuel := rfl
        rw [hstepfw, if_neg hwin]
      obtain ⟨e, hres⟩ : ∃ e,
          ((ps1.getD (rotTarget avail s i) default).send_message today
            (net (rotTarget avail s i)) msg none).1 = SendResult.error e := by
        rcases hres' : ((ps1.getD (rotTarget avail s i) default).send_message today
            (net (rotTarget avail s i)) msg none).1 with ⟨r, prov, tok⟩ | e
        · rw [attemptWins, hres'] at hwin
          simp [SendResult.isSuccess] at hwin
        · exact ⟨e, rfl⟩
      rw [hfw, MultiAIManager.sendLoop]
      simp only [hstep1, hres]
      -- the continuation state
      have hih := ih (i + 1)
        { m with
          providers := m.providers.set
            (avail.getD ((m.current_provider_index + i) % avail.length) 0)
            ((m.providers.getD
              (avail.getD ((m.current_provider_index + i) % avail.length) 0)
              default).send_message today
                (net (avail.getD ((m.current_provider_index + i) % avail.length) 0)) msg
                (if pc then some m.conversation_context else none)).2.1,
          conversation_context :=
            if pc then
              (((m.providers.getD
                (avail.getD ((m.current_provider_index + i) % avail.length) 0)
                default).send_message today
                  (net (avail.getD ((m.current_provider_index + i) % avail.length) 0)) msg
                  (if pc then some m.conversation_context else none)).2.2).getD
                m.conversation_context
            else m.conversation_context }
        (by omega) hs (by simp [hlen]) ?_
      · rcases hfwv : firstWinFrom
            (fun t => attemptWins today net ps1 msg (rotTarget avail s t)) (i + 1) fuel with
          _ | k
        · rw [hfwv] at hih
          obtain ⟨ha, hb, hc⟩ := hih
          refine ⟨ha, ?_, hc⟩
          rw [List.range'_succ, List.map_cons, ← hb]
          simp [rotTarget, hs]
        · rw [hfwv] at hih
          obtain ⟨ha, hb, hc, hd⟩ := hih
          obtain ⟨hk1, hk2, -, -⟩ := firstWinFrom_some _ _ _ _ hfwv
          refine ⟨ha, ?_, hc, hd⟩
          have hsplit : k + 1 - i = (k + 1 - (i + 1)) + 1 := by omega
          rw [hsplit, List.range'_succ, List.map_cons, ← hb]
          simp [rotTarget, hs]
      · -- the untouched future attempt targets still agree with ps1
        intro i' hi1 hi2
        have hne : rotTarget avail s i ≠ rotTarget avail s i' := by
          intro hcontra
          have := rotTarget_inj avail hnd hi hi2 hcontra
          omega
        show (m.providers.set (avail.getD ((m.current_provider_index + i) % avail.length) 0)
            _).getD (rotTarget avail s i') default = _
        rw [hs]
        show (m.providers.set (rotTarget avail s i) _).getD (rotTarget avail s i') default = _
        rw [getD_set_ne _ _ _ hne]
        exact hag i' (by omega) hi2

theorem reset_idem (p : AIProvider) (today : Nat) :
    (p.reset_daily_counter today).reset_daily_counter today =
      p.reset_daily_counter today := by
  by_cases h : p.last_reset < today
  · simp [AIProvider.reset_daily_counter, h, lt_irrefl]
  · simp [AIProvider.reset_daily_counter, h]

theorem handle_openai_success (q : AIProvider) (net : Except String HttpResponse)
    (msg : String) (ctx : Option (List Msg))
    (h : ((handleOutcome (q.send_openai_message net msg ctx)).1).isSuccess = true) :
    (handleOutcome (q.send_openai_message net msg ctx)).2.1.messages_used_today =
      q.messages_used_today + 1 := by
  unfold AIProvider.send_openai_message handleOutcome at h ⊢
  rcases net with e | resp
  · simp [SendResult.isSuccess] at h
  · by_cases h200 : resp.status_code == 200
    · simp [h200]
    · simp [h200, SendResult.isSuccess] at h

theorem handle_claude_success (q : AIProvider) (net : Except String HttpResponse)
    (msg : String) (ctx : Option (List Msg))
    (h : ((handleOutcome (q.send_claude_message net msg ctx)).1).isSuccess = true) :
    (handleOutcome (q.send_claude_message net msg ctx)).2.1.messages_used_today =
      q.messages_used_today + 1 := by
  unfold AIProvider.send_claude_message handleOutcome at h ⊢
  rcases net with e | resp
  · simp [SendResult.isSuccess] at h
  · by_cases h200 : resp.status_code == 200
    · simp [h200]
    · simp [h200, SendResult.isSuccess] at h

/-- A successful provider-level send increments the (lazily reset) daily
counter by exactly one. -/
theorem send_success_counter (p : AIProvider) (today : Nat)
    (net : Except String HttpResponse) (msg : String) (ctx : Option (List Msg))
    (h : ((p.send_message today net msg ctx).1).isSuccess = true) :
    (p.send_message today net msg ctx).2.1.messages_used_today =
      (p.reset_daily_counter today).messages_used_today + 1 := by
  by_cases hcs : (p.can_send_message today).1 = false
  · have heq : p.send_message today net msg ctx =
        (SendResult.error ("Daily limit reached for " ++ (p.can_send_message today).2.name),
          (p.can_send_message today).2, ctx) := by
      unfold AIProvider.send_message
      simp only [hcs, if_true]
    rw [heq] at h
    simp [SendResult.isSuccess] at h
  · have hcst : (p.can_send_message today).1 = true := by simpa using hcs
    by_cases h1 : pyLower (p.can_send_message today).2.name = "openai"
    · have heq : p.send_message today net msg ctx =
          handleOutcome ((p.can_send_message today).2.send_openai_message net msg ctx) := by
        unfold AIProvider.send_message
        simp [hcst, h1]
      rw [heq] at h ⊢
      exact handle_openai_success _ _ _ _ h
    · by_cases h2 : pyLower (p.can_send_message today).2.name = "claude"
      · have heq : p.send_message today net msg ctx =
            handleOutcome ((p.can_send_message today).2.send_claude_message net msg ctx) := by
          unfold AIProvider.send_message
          simp [hcst, h1, h2]
        rw [heq] at h ⊢
        exact handle_claude_success _ _ _ _ h
      · by_cases h3 : pyLower (p.can_send_message today).2.name = "deepseek"
        · have heq : p.send_message today net msg ctx =
              handleOutcome ((p.can_send_message today).2.send_deepseek_message net msg ctx) := by
            unfold AIProvider.send_message
            simp [hcst, h1, h2, h3]
          rw [heq] at h ⊢
          exact handle_openai_success _ _ _ _ h
        · have heq : p.send_message today net msg ctx =
              (SendResult.error ("Unknown provider: " ++ (p.can_send_message today).2.name),
                (p.can_send_message today).2, ctx) := by
            unfold AIProvider.send_message
            simp [hcst, h1, h2, h3]
          rw [heq] at h
          simp [SendResult.isSuccess] at h

/-- `send_message`, under a non-empty available set, is exactly one pass of
the rotation loop over the (lazily reset) provider list. -/
theorem send_message_eq_loop (today : Nat) (net : Nat → Except String HttpResponse)
    (m : MultiAIManager) (message : String) (pc : Bool)
    (ha : (m.get_available_providers today).2 ≠ []) :
    m.send_message today net message pc =
      MultiAIManager.sendLoop today net message pc (m.get_available_providers today).2
        (m.get_available_providers today).2.length (m.get_available_providers today).1 0 := by
  have hval : ∀ x ∈ (m.get_available_providers today).2, x < m.providers.length := by
    intro x hx
    have hx' := List.mem_of_mem_filter hx
    have := List.mem_range.1 hx'
    simpa using this
  have hne : m.providers.isEmpty = false := by
    rw [List.isEmpty_eq_false]
    obtain ⟨x, hx⟩ := List.exists_mem_of_ne_nil _ ha
    have := hval x hx
    intro hnil
    rw [hnil] at this
    simp at this
  have hav2 : (m.get_available_providers today).2.isEmpty = false := by
    rw [List.isEmpty_eq_false]
    exact ha
  unfold MultiAIManager.send_message
  simp only [hne, Bool.false_eq_true, if_false, hav2]

/-- Characterisation of a `send_message` call with a non-empty available
set, in terms of the first winning rotation attempt. -/
theorem send_message_spec (today : Nat) (net : Nat → Except String HttpResponse)
    (m : MultiAIManager) (message : String) (pc : Bool)
    (ha : (m.get_available_providers today).2 ≠ []) :
    (match firstWinFrom
        (fun t => attemptWins today net (m.get_available_providers today).1.providers message
          (rotTarget (m.get_available_providers today).2 m.current_provider_index t))
        0 (m.get_available_providers today).2.length with
     | some k =>
       (m.send_message today net message pc).1 =
         (((m.get_available_providers today).1.providers.getD
             (rotTarget (m.get_available_providers today).2 m.current_provider_index k)
             default).send_message today
           (net (rotTarget (m.get_available_providers today).2 m.current_provider_index k))
           message none).1 ∧
       (m.send_message today net message pc).2.2 =
         (List.range' 0 (k + 1)).map
           (rotTarget (m.get_available_providers today).2 m.current_provider_index) ∧
       (m.send_message today net message pc).2.1.current_provider_index =
         (m.current_provider_index + k) % (m.get_available_providers today).2.length ∧
       (m.send_message today net message pc).2.1.providers.getD
           (rotTarget (m.get_available_providers today).2 m.current_provider_index k)
           default =
         (((m.get_available_providers today).1.providers.getD
             (rotTarget (m.get_available_providers today).2 m.current_provider_index k)
             default).send_message today
           (net (rotTarget (m.get_available_providers today).2 m.current_provider_index k))
           message none).2.1
     | none =>
       (m.send_message today net message pc).1 =
         SendResult.error "All available providers failed to respond" ∧
       (m.send_message today net message pc).2.2 =
         (List.range' 0 (m.get_available_providers today).2.length).map
           (rotTarget (m.get_available_providers today).2 m.current_provider_index) ∧
       (m.send_message today net message pc).2.1.current_provider_index =
         m.current_provider_index) := by
  have hndup : (m.get_available_providers today).2.Nodup := by
    show ((List.range _).filter _).Nodup
    exact List.Nodup.filter _ (List.nodup_range _)
  have hval : ∀ x ∈ (m.get_available_providers today).2,
      x < (m.get_available_providers today).1.providers.length := by
    intro x hx
    have hx' := List.mem_of_mem_filter hx
    exact List.mem_range.1 hx'
  have hspec := sendLoop_spec today net message pc (m.get_available_providers today).2
    (m.get_available_providers today).1.providers m.current_provider_index hndup hval
    (m.get_available_providers today).2.length 0 (m.get_available_providers today).1
    (Nat.add_zero _) rfl rfl (fun i' _ _ => rfl)
  rw [send_message_eq_loop today net m message pc ha]
  rcases hfw : firstWinFrom
      (fun t => attemptWins today net (m.get_available_providers today).1.providers message
        (rotTarget (m.get_available_providers today).2 m.current_provider_index t))
      0 (m.get_available_providers today).2.length with _ | k
  · rw [hfw] at hspec
    exact hspec
  · rw [hfw] at hspec
    obtain ⟨h1, h2, h3, h4⟩ := hspec
    have hk1 : k + 1 - 0 = k + 1 := by omega
    rw [hk1] at h2
    exact ⟨h1, h2, h3, h4⟩

/-- C1: with a non-empty available set, `send_message` attempts the
available providers in rotation order starting from the remembered rotation
index, each at most once (the attempt trace is the rotation prefix, without
duplicates); the first attempt that wins ends the call: its result dict is
returned unchanged and that provider's daily counter is incremented by
exactly one; if every attempt fails the call returns the aggregate
`"All available providers failed to respond"` error after attempting every
candidate exactly once. -/
theorem send_message_rotation_first_success
    (today : Nat) (net : Nat → Except String HttpResponse) (m : MultiAIManager)
    (message : String) (pc : Bool)
    (ha : (m.get_available_providers today).2 ≠ []) :
    (match firstWinFrom
        (fun t => attemptWins today net (m.get_available_providers today).1.providers message
          (rotTarget (m.get_available_providers today).2 m.current_provider_index t))
        0 (m.get_available_providers today).2.length with
     | some k =>
       attemptWins today net (m.get_available_providers today).1.providers message
         (rotTarget (m.get_available_providers today).2 m.current_provider_index k) = true ∧
       (∀ t, t < k →
         attemptWins today net (m.get_available_providers today).1.providers message
           (rotTarget (m.get_available_providers today).2 m.current_provider_index t) = false) ∧
       (m.send_message today net message pc).1 =
         (((m.get_available_providers today).1.providers.getD
             (rotTarget (m.get_available_providers today).2 m.current_provider_index k)
             default).send_message today
           (net (rotTarget (m.get_available_providers today).2 m.current_provider_index k))
           message none).1 ∧
       ((m.send_message today net message pc).1).isSuccess = true ∧
       (m.send_message today net message pc).2.2 =
         (List.range' 0 (k + 1)).map
           (rotTarget (m.get_available_providers today).2 m.current_provider_index) ∧
       ((m.send_message today net message pc).2.2).Nodup ∧
       ((m.send_message today net message pc).2.1.providers.getD
           (rotTarget (m.get_available_providers today).2 m.current_provider_index k)
           default).messages_used_today =
         ((m.get_available_providers today).1.providers.getD
             (rotTarget (m.get_available_providers today).2 m.current_provider_index k)
             default).messages_used_today + 1
     | none =>
       (∀ t, t < (m.get_available_providers today).2.length →
         attemptWins today net (m.get_available_providers today).1.providers message
           (rotTarget (m.get_available_providers today).2 m.current_provider_index t) = false) ∧
       (m.send_message today net message pc).1 =
         SendResult.error "All available providers failed to respond" ∧
       (m.send_message today net message pc).2.2 =
         (List.range' 0 (m.get_available_providers today).2.length).map
           (rotTarget (m.get_available_providers today).2 m.current_provider_index) ∧
       ((m.send_message today net message pc).2.2).Nodup) := by
  have hndup : (m.get_available_providers today).2.Nodup := by
    show ((List.range _).filter _).Nodup
    exact List.Nodup.filter _ (List.nodup_range _)
  have hval : ∀ x ∈ (m.get_available_providers today).2,
      x < (m.get_available_providers today).1.providers.length := by
    intro x hx
    exact List.mem_range.1 (List.mem_of_mem_filter hx)
  have hn : 0 < (m.get_available_providers today).2.length :=
    List.length_pos.2 ha
  have hmap : ∀ t, t < (m.get_available_providers today).2.length →
      ∃ x : AIProvider, (m.get_available_providers today).1.providers.getD
          (rotTarget (m.get_available_providers today).2 m.current_provider_index t)
          default = x.reset_daily_counter today := by
    intro t ht
    have hmlt : (m.current_provider_index + t) % (m.get_available_providers today).2.length <
        (m.get_available_providers today).2.length := Nat.mod_lt _ hn
    have hjmem : rotTarget (m.get_available_providers today).2 m.current_provider_index t ∈
        (m.get_available_providers today).2 := by
      rw [rotTarget, getD_of_lt _ _ _ hmlt]
      exact List.get_mem _ _ hmlt
    have hjlt := hval _ hjmem
    have hjlt2 : rotTarget (m.get_available_providers today).2 m.current_provider_index t <
        m.providers.length := by
      have hlen : (m.get_available_providers today).1.providers.length =
          m.providers.length := by
        show (m.providers.map (fun p => p.reset_daily_counter today)).length = _
        simp
      omega
    refine ⟨m.providers.getD
      (rotTarget (m.get_available_providers today).2 m.current_provider_index t) default, ?_⟩
    show (m.providers.map (fun p => p.reset_daily_counter today)).getD _ default = _
    rw [List.getD_eq_getElem?_getD, List.getElem?_map, List.getElem?_eq_getElem hjlt2]
    rw [List.getD_eq_getElem?_getD, List.getElem?_eq_getElem hjlt2]
    rfl
  have hnodup_trace : ∀ L, L ≤ (m.get_available_providers today).2.length →
      ((List.range' 0 L).map
        (rotTarget (m.get_available_providers today).2 m.current_provider_index)).Nodup := by
    intro L hL
    refine List.Nodup.map_on ?_ (List.nodup_range' _ _)
    intro x hx y hy hxy
    have hx' := (List.mem_range'_1.1 hx).2
    have hy' := (List.mem_range'_1.1 hy).2
    exact rotTarget_inj _ hndup (by omega) (by omega) hxy
  have hspec := send_message_spec today net m message pc ha
  rcases hfw : firstWinFrom
      (fun t => attemptWins today net (m.get_available_providers today).1.providers message
        (rotTarget (m.get_available_providers today).2 m.current_provider_index t))
      0 (m.get_available_providers today).2.length with _ | k
  · rw [hfw] at hspec
    obtain ⟨h1, h2, h3⟩ := hspec
    have hall := firstWinFrom_none _ _ _ hfw
    refine ⟨fun t ht => hall t (by omega) (by omega), h1, h2, ?_⟩
    rw [h2]
    exact hnodup_trace _ (le_refl _)
  · rw [hfw] at hspec
    obtain ⟨h1, h2, h3, h4⟩ := hspec
    obtain ⟨-, hk2, hok, hbefore⟩ := firstWinFrom_some _ _ _ _ hfw
    have hkn : k < (m.get_available_providers today).2.length := by omega
    refine ⟨hok, fun t ht => hbefore t (by omega) ht, h1, ?_, h2, ?_, ?_⟩
    · rw [h1]
      exact hok
    · rw [h2]
      exact hnodup_trace _ (by omega)
    · rw [h4]
      have hsucc := send_success_counter _ today _ message none hok
      rw [hsucc]
      obtain ⟨x, hx⟩ := hmap k hkn
      rw [hx, reset_idem]

/-- Network oracle for the C1 witness scenario: provider 0 fails with a
rate-limited 429, provider 1 succeeds. -/
def wNet : Nat → Except String HttpResponse :=
  fun j => if j == 0 then Except.ok ⟨429, "rate_limit", "", 0⟩
           else Except.ok ⟨200, "", "hello from B", 3⟩

/-- Manager for the C1 witness scenario: two fresh providers. -/
def wMgr : MultiAIManager :=
  { providers := [AIProvider.init 5 "OpenAI" "kA" "uA" "gpt-4" 1000,
                  AIProvider.init 5 "Claude" "kB" "uB" "claude-3" 1000],
    conversation_context := [], current_provider_index := 0,
    max_context_length := 20 }

/-- Witness for `send_message_rotation_first_success`: the two-provider
scenario (first attempt rate-limited, second succeeds) with a non-empty
available set. -/
theorem send_message_rotation_first_success_witness :
    (match firstWinFrom
        (fun t => attemptWins 5 wNet (wMgr.get_available_providers 5).1.providers "hi"
          (rotTarget (wMgr.get_available_providers 5).2 wMgr.current_provider_index t))
        0 (wMgr.get_available_providers 5).2.length with
     | some k =>
       attemptWins 5 wNet (wMgr.get_available_providers 5).1.providers "hi"
         (rotTarget (wMgr.get_available_providers 5).2 wMgr.current_provider_index k) = true ∧
       (∀ t, t < k →
         attemptWins 5 wNet (wMgr.get_available_providers 5).1.providers "hi"
           (rotTarget (wMgr.get_available_providers 5).2 wMgr.current_provider_index t) = false) ∧
       (wMgr.send_message 5 wNet "hi" true).1 =
         (((wMgr.get_available_providers 5).1.providers.getD
             (rotTarget (wMgr.get_available_providers 5).2 wMgr.current_provider_index k)
             default).send_message 5
           (wNet (rotTarget (wMgr.get_available_providers 5).2 wMgr.current_provider_index k))
           "hi" none).1 ∧
       ((wMgr.send_message 5 wNet "hi" true).1).isSuccess = true ∧
       (wMgr.send_message 5 wNet "hi" true).2.2 =
         (List.range' 0 (k + 1)).map
           (rotTarget (wMgr.get_available_providers 5).2 wMgr.current_provider_index) ∧
       ((wMgr.send_message 5 wNet "hi" true).2.2).Nodup ∧
       ((wMgr.send_message 5 wNet "hi" true).2.1.providers.getD
           (rotTarget (wMgr.get_available_providers 5).2 wMgr.current_provider_index k)
           default).messages_used_today =
         ((wMgr.get_available_providers 5).1.providers.getD
             (rotTarget (wMgr.get_available_providers 5).2 wMgr.current_provider_index k)
             default).messages_used_today + 1
     | none =>
       (∀ t, t < (wMgr.get_available_providers 5).2.length →
         attemptWins 5 wNet (wMgr.get_available_providers 5).1.providers "hi"
           (rotTarget (wMgr.get_available_providers 5).2 wMgr.current_provider_index t) = false) ∧
       (wMgr.send_message 5 wNet "hi" true).1 =
         SendResult.error "All available providers failed to respond" ∧
       (wMgr.send_message 5 wNet "hi" true).2.2 =
         (List.range' 0 (wMgr.get_available_providers 5).2.length).map
           (rotTarget (wMgr.get_available_providers 5).2 wMgr.current_provider_index) ∧
       ((wMgr.send_message 5 wNet "hi" true).2.2).Nodup) :=
  send_message_rotation_first_success 5 wNet wMgr "hi" true (by decide)

/-- C5: when a `send_message` call's rotation scan wins at iteration `k`,
the router's rotation index afterwards equals
`(remembered index + k) % available-set size` — the position, within the
available list computed for that call, of the provider whose result was
returned — and every later call with a non-empty available set makes its
first attempt at the provider at position
`remembered index % new available-set size` of its own available list. -/
theorem rotation_index_after_success
    (today : Nat) (net : Nat → Except String HttpResponse) (m : MultiAIManager)
    (message : String) (pc : Bool)
    (ha : (m.get_available_providers today).2 ≠ []) :
    (∀ k, firstWinFrom
        (fun t => attemptWins today net (m.get_available_providers today).1.providers message
          (rotTarget (m.get_available_providers today).2 m.current_provider_index t))
        0 (m.get_available_providers today).2.length = some k →
      ((m.send_message today net message pc).1).isSuccess = true ∧
      (m.send_message today net message pc).2.1.current_provider_index =
        (m.current_provider_index + k) % (m.get_available_providers today).2.length ∧
      (m.send_message today net message pc).1 =
        (((m.get_available_providers today).1.providers.getD
            (rotTarget (m.get_available_providers today).2 m.current_provider_index k)
            default).send_message today
          (net (rotTarget (m.get_available_providers today).2 m.current_provider_index k))
          message none).1) ∧
    (∀ (m2 : MultiAIManager) (today2 : Nat) (net2 : Nat → Except String HttpResponse)
      (message2 : String) (pc2 : Bool),
      (m2.get_available_providers today2).2 ≠ [] →
      ((m2.send_message today2 net2 message2 pc2).2.2).head? =
        some ((m2.get_available_providers today2).2.getD
          (m2.current_provider_index % (m2.get_available_providers today2).2.length) 0)) := by
  constructor
  · intro k hfw
    have hspec := send_message_spec today net m message pc ha
    rw [hfw] at hspec
    obtain ⟨h1, h2, h3, h4⟩ := hspec
    obtain ⟨-, -, hok, -⟩ := firstWinFrom_some _ _ _ _ hfw
    refine ⟨?_, h3, h1⟩
    rw [h1]
    exact hok
  · intro m2 today2 net2 message2 pc2 ha2
    have hspec := send_message_spec today2 net2 m2 message2 pc2 ha2
    have hn2 : 0 < (m2.get_available_providers today2).2.length := List.length_pos.2 ha2
    rcases hfw : firstWinFrom
        (fun t => attemptWins today2 net2 (m2.get_available_providers today2).1.providers
          message2
          (rotTarget (m2.get_available_providers today2).2 m2.current_provider_index t))
        0 (m2.get_available_providers today2).2.length with _ | k
    · rw [hfw] at hspec
      obtain ⟨-, h2, -⟩ := hspec
      obtain ⟨n', hn'⟩ : ∃ n', (m2.get_available_providers today2).2.length = n' + 1 :=
        ⟨(m2.get_available_providers today2).2.length - 1, by omega⟩
      rw [hn'] at h2
      rw [h2, List.range'_succ, List.map_cons]
      show some (rotTarget (m2.get_available_providers today2).2
        m2.current_provider_index 0) = _
      rw [rotTarget]
      norm_num
    · rw [hfw] at hspec
      obtain ⟨-, h2, -, -⟩ := hspec
      rw [h2, List.range'_succ, List.map_cons]
      show some (rotTarget (m2.get_available_providers today2).2
        m2.current_provider_index 0) = _
      rw [rotTarget]
      norm_num

/-- Witness for `rotation_index_after_success`: in the two-provider scenario
(first attempt rate-limited, second succeeds, winning iteration `k = 1`) the
rotation index becomes `(0 + 1) % 2` and the next scan starts at the stored
index mod the available-set size. -/
theorem rotation_index_after_success_witness :
    (((wMgr.send_message 5 wNet "hi" true).1).isSuccess = true ∧
     (wMgr.send_message 5 wNet "hi" true).2.1.current_provider_index =
       (wMgr.current_provider_index + 1) % (wMgr.get_available_providers 5).2.length ∧
     (wMgr.send_message 5 wNet "hi" true).1 =
       (((wMgr.get_available_providers 5).1.providers.getD
           (rotTarget (wMgr.get_available_providers 5).2 wMgr.current_provider_index 1)
           default).send_message 5
         (wNet (rotTarget (wMgr.get_available_providers 5).2 wMgr.current_provider_index 1))
         "hi" none).1) ∧
    ((wMgr.send_message 5 wNet "hi" true).2.2).head? =
      some ((wMgr.get_available_providers 5).2.getD
        (wMgr.current_provider_index % (wMgr.get_available_providers 5).2.length) 0) :=
  ⟨(rotation_index_after_success 5 wNet wMgr "hi" true (by decide)).1 1 (by decide),
   (rotation_index_after_success 5 wNet wMgr "hi" true (by decide)).2 wMgr 5 wNet "hi" true
     (by decide)⟩
